import Mathlib

/-!
Verification of the Hormuud SMS channel handler
(`src/handlers/hormuud/hormuud.go`, package `hormuud`).

The handler's observable behaviour is embedded shallowly: the external
collaborators (the Redis-backed token cache, the provider's HTTP token and
send endpoints) are modelled as an explicit environment value, and the
handler's functions are translated into pure Lean functions over that
environment which return both the Go return values and a trace of the
externally visible actions (HTTP calls made, cache writes performed).
-/

set_option maxRecDepth 4096

namespace Hormuud

/-- Delivery states of a courier message status. The courier `MsgStatusValue`
type (string constants `P`,`Q`,`W`,`S`,`D`,`E`,`F`) is modelled from the spec:
the status state is "one of \x7berrored, wired, sent, failed\x7d" plus the
queue states of the gateway. -/
inductive MsgStatusValue
  | pending
  | queued
  | wired
  | sent
  | delivered
  | errored
  | failed
deriving DecidableEq, Repr

/-- Modelled from the spec: a "diagnostic entry" is a recorded HTTP exchange
(request/response summary + error if any) attached to a delivery status.
We record the log description string the handler uses and whether the
exchange carried an error (`WithError` with a non-nil error). -/
structure ChannelLog where
  description : String
  hasError : Bool
deriving DecidableEq, Repr

/-- Modelled from the spec: the `DeliveryStatus` accumulator — current state,
optional provider-assigned external identifier, and an ordered sequence of
diagnostic log entries. -/
structure MsgStatus where
  state : MsgStatusValue
  externalID : Option String
  logs : List ChannelLog
deriving DecidableEq, Repr

/-- Modelled from the spec: `status.AddLog` appends a diagnostic entry to the
status's ordered log sequence. -/
def MsgStatus.AddLog (s : MsgStatus) (l : ChannelLog) : MsgStatus :=
  { s with logs := s.logs ++ [l] }

/-- Modelled from the spec: `status.SetStatus` sets the current state. -/
def MsgStatus.SetStatus (s : MsgStatus) (v : MsgStatusValue) : MsgStatus :=
  { s with state := v }

/-- Modelled from the spec: `status.SetExternalID` records the
provider-assigned external identifier. -/
def MsgStatus.SetExternalID (s : MsgStatus) (id : String) : MsgStatus :=
  { s with externalID := some id }

/-- The channel configuration the handler reads: UUID (cache key), address
(sender ID) and the `username` / `password` string config values, where `""`
is what `StringConfigForKey` returns for a missing key. -/
structure Channel where
  uuid : String
  address : String
  username : String
  password : String
deriving DecidableEq, Repr

/-- The message fields the handler reads: `msg.URN().Path()` and the combined
text-and-attachments rendering `handlers.GetTextAndAttachments(msg)`. -/
structure Msg where
  urnPath : String
  textAndAttachments : String
deriving DecidableEq, Repr

/-- Outcome of the provider token-endpoint exchange, as seen by `FetchToken`
after `utils.MakeHTTPRequest` and `jsonparser.GetString(rr.Body, "access_token")`:
a transport-level failure (non-nil error from `MakeHTTPRequest`, which per the
spec still yields a diagnostic record of the attempt), a response in which the
`access_token` field is absent (`GetString` fails), or a response carrying an
`access_token` string (possibly empty). -/
inductive TokenResp
  | transportErr
  | parseErr
  | token (t : String)
deriving DecidableEq, Repr

/-- The errors `FetchToken` can return (hormuud.go lines 163, 168, 184, 189, 193). -/
inductive FetchErr
  | missingUsername
  | missingPassword
  | tokenRequestErr
  | accessTokenParseErr
  | emptyAccessToken
deriving DecidableEq, Repr

/-- A `SETEX` write to the shared token store: key, TTL in seconds, value. -/
structure CacheWrite where
  key : String
  ttl : Nat
  value : String
deriving DecidableEq, Repr

/-- Environment of one `FetchToken` call: the string the Redis `GET` yields
(`""` on a missing key or connection error, as `redis.String` returns), the
token endpoint's behaviour, and whether the `SETEX` cache write would succeed. -/
structure FetchEnv where
  cached : String
  tokenResp : TokenResp
  cacheWriteOk : Bool
deriving DecidableEq, Repr

/-- Result and trace of `FetchToken`: the returned token string, whether the
returned `*utils.RequestResponse` is non-nil, the returned error, the number
of provider HTTP calls made, the cache write performed (if any), and whether
a cache-write failure was logged. -/
structure FetchResult where
  token : String
  rr : Bool
  error : Option FetchErr
  httpCalls : Nat
  cacheWrite : Option CacheWrite
  cacheWriteFailLogged : Bool
deriving DecidableEq, Repr

/-- Embeds `FetchToken` (hormuud.go lines 149-205): return a non-empty cached
token as-is; otherwise require non-empty `username` and `password` config;
otherwise exchange credentials at the token endpoint, fail on transport error,
on a missing `access_token` field, or on an empty token; on success cache the
token under `hm_token_<uuid>` with TTL 5340 seconds, only logging any cache
write failure, and return the token with a nil error. -/
def FetchToken (ch : Channel) (env : FetchEnv) : FetchResult :=
  if env.cached ≠ "" then
    ⟨env.cached, false, none, 0, none, false⟩
  else if ch.username = "" then
    ⟨"", false, some FetchErr.missingUsername, 0, none, false⟩
  else if ch.password = "" then
    ⟨"", false, some FetchErr.missingPassword, 0, none, false⟩
  else
    match env.tokenResp with
    | TokenResp.transportErr => ⟨"", true, some FetchErr.tokenRequestErr, 1, none, false⟩
    | TokenResp.parseErr => ⟨"", true, some FetchErr.accessTokenParseErr, 1, none, false⟩
    | TokenResp.token t =>
      if t = "" then
        ⟨"", true, some FetchErr.emptyAccessToken, 1, none, false⟩
      else
        ⟨t, true, none, 1, some ⟨"hm_token_" ++ ch.uuid, 5340, t⟩, !env.cacheWriteOk⟩

/-- Outcome of one provider send-endpoint exchange as seen by `SendMsg`:
a transport-level failure (non-nil error from `MakeHTTPRequest`), or a
response whose body yields `messageID` for the `Data.MessageID` path
(`""` when the field is absent, since the `GetString` error is ignored). -/
inductive SendResp
  | transportErr
  | ok (messageID : String)
deriving DecidableEq, Repr

/-- Embeds the `mtPayload` JSON body (hormuud.go lines 74-81). -/
structure mtPayload where
  mobile : String
  message : String
  senderid : String
  mType : Int
  eType : Int
  UDH : String
deriving DecidableEq, Repr

/-- One provider send request as built by the loop body: the JSON payload and
the `Authorization` header value. -/
structure SendRequest where
  payload : mtPayload
  authorization : String
deriving DecidableEq, Repr

/-- Environment of one `SendMsg` call: the token-fetch environment and, for
each segment index, the outcome of that segment's send exchange. -/
structure SendEnv where
  fetch : FetchEnv
  send : Nat → SendResp

/-- Result of the segment loop: the final status, the send requests made in
order, and how many segment sends succeeded. -/
structure LoopResult where
  status : MsgStatus
  requests : List SendRequest
  okSends : Nat

/-- Embeds `strings.TrimPrefix(msg.URN().Path(), "+")` (hormuud.go line 106):
remove one leading `+` character when present. -/
def stripPlus (s : String) : String :=
  match s.data with
  | c :: rest => if c = '+' then String.mk rest else s
  | [] => s

/-- Embeds `maxMsgLength` (hormuud.go line 23). -/
def maxMsgLength : Nat := 160

/-- Modelled from the spec: the character-chunking core of the message
segmenter (the courier `handlers` package is not part of this snapshot).
Splits a character list into in-order chunks of at most `limit` characters;
a text of at most `limit` characters is a single segment equal to the text.
The first argument is structural-recursion fuel; callers pass the list's
length, which suffices since every recursive step removes `limit ≥ 1`
characters. -/
def chunkChars : Nat → Nat → List Char → List (List Char)
  | 0, _, cs => [cs]
  | fuel + 1, limit, cs =>
    if limit = 0 ∨ cs.length ≤ limit then [cs]
    else cs.take limit :: chunkChars fuel limit (cs.drop limit)

/-- Modelled from the spec: `handlers.SplitMsgByChannel(channel, text, limit)`
(hormuud.go line 103 calls it; its code is not part of this snapshot) —
"produces one or more non-empty strings, each at most `limit` characters,
preserving original text order, concatenation of all segments reproduces the
normalized message content"; "for all messages with length ≤ limit,
segmentation yields exactly one segment equal to the message". -/
def SplitMsg (text : String) (limit : Nat) : List String :=
  (chunkChars text.data.length limit text.data).map String.mk

/-- Embeds the per-segment loop of `SendMsg` (hormuud.go lines 104-139):
for the segment at index `i`, build the `mtPayload` send request with the
bearer-token authorization header and send it; append a diagnostic entry for
the exchange; on error stop the loop; on success set the status to wired and,
for a non-empty `Data.MessageID` on the first segment, record the external ID. -/
def sendSegments (addr mobile token : String) (resp : Nat → SendResp) :
    Nat → List String → MsgStatus → LoopResult
  | _, [], st => ⟨st, [], 0⟩
  | i, part :: rest, st =>
    let req : SendRequest :=
      ⟨⟨mobile, part, addr, -1, -1, ""⟩, "Bearer " ++ token⟩
    match resp i with
    | SendResp.transportErr =>
      ⟨st.AddLog ⟨"Message Sent", true⟩, [req], 0⟩
    | SendResp.ok id =>
      let st1 := st.AddLog ⟨"Message Sent", false⟩
      let st2 := st1.SetStatus MsgStatusValue.wired
      let st3 := if id ≠ "" ∧ i = 0 then st2.SetExternalID id else st2
      let r := sendSegments addr mobile token resp (i + 1) rest st3
      ⟨r.status, req :: r.requests, r.okSends + 1⟩

/-- Result and trace of `SendMsg`: the returned status (`none` embeds a nil
`courier.MsgStatus`), the returned error (the wrapped `FetchToken` error in
the nil-status path), and the trace of provider HTTP activity. -/
structure SendResult where
  status : Option MsgStatus
  error : Option FetchErr
  tokenHTTPCalls : Nat
  cacheWrite : Option CacheWrite
  requests : List SendRequest
  okSends : Nat

/-- Embeds `SendMsg` (hormuud.go lines 84-142): create a status in state
errored; fetch a token; with no request-response and a non-nil error, return
a nil status and the wrapped error; if a token request was made, append its
diagnostic entry; on a fetch error return the status; otherwise split the
message text and attachments by `maxMsgLength` and run the segment loop. -/
def SendMsg (ch : Channel) (msg : Msg) (env : SendEnv) : SendResult :=
  let status0 : MsgStatus := ⟨MsgStatusValue.errored, none, []⟩
  let fr := FetchToken ch env.fetch
  if fr.rr = false ∧ fr.error.isSome then
    ⟨none, fr.error, fr.httpCalls, fr.cacheWrite, [], 0⟩
  else
    let status1 :=
      if fr.rr then status0.AddLog ⟨"Token Retrieved", fr.error.isSome⟩ else status0
    if fr.error.isSome then
      ⟨some status1, none, fr.httpCalls, fr.cacheWrite, [], 0⟩
    else
      let parts := SplitMsg msg.textAndAttachments maxMsgLength
      let r := sendSegments ch.address (stripPlus msg.urnPath) fr.token env.send 0 parts status1
      ⟨some r.status, none, fr.httpCalls, fr.cacheWrite, r.requests, r.okSends⟩

/-!
Helper lemmas about the status accumulator and the segment loop.
-/

@[simp] theorem MsgStatus.AddLog_state (s : MsgStatus) (l : ChannelLog) :
    (s.AddLog l).state = s.state := rfl

@[simp] theorem MsgStatus.AddLog_externalID (s : MsgStatus) (l : ChannelLog) :
    (s.AddLog l).externalID = s.externalID := rfl

@[simp] theorem MsgStatus.AddLog_logs (s : MsgStatus) (l : ChannelLog) :
    (s.AddLog l).logs = s.logs ++ [l] := rfl

@[simp] theorem MsgStatus.SetStatus_state (s : MsgStatus) (v : MsgStatusValue) :
    (s.SetStatus v).state = v := rfl

@[simp] theorem MsgStatus.SetStatus_externalID (s : MsgStatus) (v : MsgStatusValue) :
    (s.SetStatus v).externalID = s.externalID := rfl

@[simp] theorem MsgStatus.SetStatus_logs (s : MsgStatus) (v : MsgStatusValue) :
    (s.SetStatus v).logs = s.logs := rfl

@[simp] theorem MsgStatus.SetExternalID_state (s : MsgStatus) (id : String) :
    (s.SetExternalID id).state = s.state := rfl

@[simp] theorem MsgStatus.SetExternalID_externalID (s : MsgStatus) (id : String) :
    (s.SetExternalID id).externalID = some id := rfl

@[simp] theorem MsgStatus.SetExternalID_logs (s : MsgStatus) (id : String) :
    (s.SetExternalID id).logs = s.logs := rfl

/-- The segment loop either leaves the state untouched with zero successful
sends, or sets it to wired with at least one successful send. -/
theorem sendSegments_state_okSends (addr mobile token : String) (resp : Nat → SendResp)
    (ps : List String) (i : Nat) (st : MsgStatus) :
    ((sendSegments addr mobile token resp i ps st).status.state = st.state ∧
      (sendSegments addr mobile token resp i ps st).okSends = 0) ∨
    ((sendSegments addr mobile token resp i ps st).status.state = MsgStatusValue.wired ∧
      0 < (sendSegments addr mobile token resp i ps st).okSends) := by
  induction ps generalizing i st with
  | nil => exact Or.inl ⟨rfl, rfl⟩
  | cons p rest ih =>
    cases hr : resp i with
    | transportErr =>
      exact Or.inl (by simp [sendSegments, hr])
    | ok id =>
      refine Or.inr ?_
      have hwired : ∀ st' : MsgStatus, st'.state = MsgStatusValue.wired →
          (sendSegments addr mobile token resp (i + 1) rest st').status.state
            = MsgStatusValue.wired := by
        intro st' hst'
        rcases ih (i + 1) st' with ⟨h1, _⟩ | ⟨h1, _⟩
        · rw [h1, hst']
        · exact h1
      simp only [sendSegments, hr]
      constructor
      · apply hwired
        split <;> simp
      · simp

/-- Unfolding of the segment loop on a transport failure. -/
theorem sendSegments_cons_err (addr mobile token : String) (resp : Nat → SendResp)
    (i : Nat) (p : String) (rest : List String) (st : MsgStatus)
    (h : resp i = SendResp.transportErr) :
    sendSegments addr mobile token resp i (p :: rest) st =
      ⟨st.AddLog ⟨"Message Sent", true⟩,
        [⟨⟨mobile, p, addr, -1, -1, ""⟩, "Bearer " ++ token⟩], 0⟩ := by
  simp [sendSegments, h]

/-- Unfolding of the segment loop on a successful send. -/
theorem sendSegments_cons_ok (addr mobile token : String) (resp : Nat → SendResp)
    (i : Nat) (p : String) (rest : List String) (st : MsgStatus) (id : String)
    (h : resp i = SendResp.ok id) :
    sendSegments addr mobile token resp i (p :: rest) st =
      ⟨(sendSegments addr mobile token resp (i + 1) rest
          (if id ≠ "" ∧ i = 0 then
            ((st.AddLog ⟨"Message Sent", false⟩).SetStatus MsgStatusValue.wired).SetExternalID id
          else
            (st.AddLog ⟨"Message Sent", false⟩).SetStatus MsgStatusValue.wired)).status,
        ⟨⟨mobile, p, addr, -1, -1, ""⟩, "Bearer " ++ token⟩ ::
          (sendSegments addr mobile token resp (i + 1) rest
            (if id ≠ "" ∧ i = 0 then
              ((st.AddLog ⟨"Message Sent", false⟩).SetStatus MsgStatusValue.wired).SetExternalID id
            else
              (st.AddLog ⟨"Message Sent", false⟩).SetStatus MsgStatusValue.wired)).requests,
        (sendSegments addr mobile token resp (i + 1) rest
          (if id ≠ "" ∧ i = 0 then
            ((st.AddLog ⟨"Message Sent", false⟩).SetStatus MsgStatusValue.wired).SetExternalID id
          else
            (st.AddLog ⟨"Message Sent", false⟩).SetStatus MsgStatusValue.wired)).okSends + 1⟩ := by
  conv_lhs => rw [sendSegments]
  rw [h]

/-- Behaviour of the segment loop when the segments at offsets `0..m-1`
succeed and the segment at offset `m` fails at the transport layer: the loop
makes exactly `m + 1` requests, appends one diagnostic entry per attempted
segment (the last one carrying the error), counts `m` successful sends,
leaves the state untouched when `m = 0` and wired otherwise, and keeps the
external identifier recorded from the response at absolute index `0`. -/
theorem sendSegments_fail (addr mobile token : String) (resp : Nat → SendResp)
    (ids : Nat → String) (ps : List String) (m i : Nat) (st : MsgStatus)
    (hm : m < ps.length)
    (hok : ∀ j, j < m → resp (i + j) = SendResp.ok (ids (i + j)))
    (hfail : resp (i + m) = SendResp.transportErr) :
    (sendSegments addr mobile token resp i ps st).requests.length = m + 1 ∧
    (sendSegments addr mobile token resp i ps st).status.logs
      = st.logs ++ List.replicate m ⟨"Message Sent", false⟩ ++ [⟨"Message Sent", true⟩] ∧
    (sendSegments addr mobile token resp i ps st).okSends = m ∧
    (sendSegments addr mobile token resp i ps st).status.state
      = (if m = 0 then st.state else MsgStatusValue.wired) ∧
    (sendSegments addr mobile token resp i ps st).status.externalID
      = (if m ≠ 0 ∧ i = 0 ∧ ids 0 ≠ "" then some (ids 0) else st.externalID) := by
  induction ps generalizing m i st with
  | nil => exact absurd hm (by simp)
  | cons p rest ih =>
    cases m with
    | zero =>
      have hf : resp i = SendResp.transportErr := by simpa using hfail
      rw [sendSegments_cons_err addr mobile token resp i p rest st hf]
      simp
    | succ m' =>
      have h0 : resp i = SendResp.ok (ids i) := by
        simpa using hok 0 (Nat.succ_pos m')
      have hm' : m' < rest.length := by
        simpa [Nat.succ_lt_succ_iff] using hm
      have hok' : ∀ j, j < m' → resp (i + 1 + j) = SendResp.ok (ids (i + 1 + j)) := by
        intro j hj
        rw [show i + 1 + j = i + (j + 1) by omega]
        exact hok (j + 1) (by omega)
      have hfail' : resp (i + 1 + m') = SendResp.transportErr := by
        rw [show i + 1 + m' = i + (m' + 1) by omega]
        exact hfail
      rw [sendSegments_cons_ok addr mobile token resp i p rest st (ids i) h0]
      by_cases hc : ids i ≠ "" ∧ i = 0
      · rw [if_pos hc]
        obtain ⟨r1, r2, r3, r4, r5⟩ := ih m' (i + 1)
          (((st.AddLog ⟨"Message Sent", false⟩).SetStatus
              MsgStatusValue.wired).SetExternalID (ids i)) hm' hok' hfail'
        have hi : i = 0 := hc.2
        have hne : ids 0 ≠ "" := by rw [← hi]; exact hc.1
        refine ⟨?_, ?_, ?_, ?_, ?_⟩
        · show (_ :: _).length = m' + 1 + 1
          rw [List.length_cons, r1]
        · show _ = _
          rw [r2]
          simp [List.replicate_succ]
        · show _ + 1 = m' + 1
          rw [r3]
        · show _ = _
          rw [r4]
          simp
        · show _ = _
          rw [r5]
          simp [hi, hne]
      · rw [if_neg hc]
        obtain ⟨r1, r2, r3, r4, r5⟩ := ih m' (i + 1)
          ((st.AddLog ⟨"Message Sent", false⟩).SetStatus MsgStatusValue.wired) hm' hok' hfail'
        refine ⟨?_, ?_, ?_, ?_, ?_⟩
        · show (_ :: _).length = m' + 1 + 1
          rw [List.length_cons, r1]
        · show _ = _
          rw [r2]
          simp [List.replicate_succ]
        · show _ + 1 = m' + 1
          rw [r3]
        · show _ = _
          rw [r4]
          simp
        · show _ = _
          rw [r5]
          by_cases hi : i = 0
          · have hid : ids 0 = "" := by
              by_contra hne
              exact hc ⟨by rw [hi]; exact hne, hi⟩
            simp [hid]
          · simp [hi]

/-- Behaviour of the segment loop when every segment's send succeeds: one
request and one error-free diagnostic entry per segment, every send counted
as successful, the state wired as soon as there is at least one segment, and
the external identifier recorded from the response at absolute index `0`. -/
theorem sendSegments_allOk (addr mobile token : String) (resp : Nat → SendResp)
    (ids : Nat → String) (ps : List String) (i : Nat) (st : MsgStatus)
    (hok : ∀ j, j < ps.length → resp (i + j) = SendResp.ok (ids (i + j))) :
    (sendSegments addr mobile token resp i ps st).requests.length = ps.length ∧
    (sendSegments addr mobile token resp i ps st).status.logs
      = st.logs ++ List.replicate ps.length ⟨"Message Sent", false⟩ ∧
    (sendSegments addr mobile token resp i ps st).okSends = ps.length ∧
    (sendSegments addr mobile token resp i ps st).status.state
      = (if ps.length = 0 then st.state else MsgStatusValue.wired) ∧
    (sendSegments addr mobile token resp i ps st).status.externalID
      = (if ps.length ≠ 0 ∧ i = 0 ∧ ids 0 ≠ "" then some (ids 0) else st.externalID) := by
  induction ps generalizing i st with
  | nil => simp [sendSegments]
  | cons p rest ih =>
    have h0 : resp i = SendResp.ok (ids i) := by
      simpa using hok 0 (by simp)
    have hok' : ∀ j, j < rest.length → resp (i + 1 + j) = SendResp.ok (ids (i + 1 + j)) := by
      intro j hj
      rw [show i + 1 + j = i + (j + 1) by omega]
      exact hok (j + 1) (by simpa using Nat.succ_lt_succ hj)
    rw [sendSegments_cons_ok addr mobile token resp i p rest st (ids i) h0]
    by_cases hc : ids i ≠ "" ∧ i = 0
    · rw [if_pos hc]
      obtain ⟨r1, r2, r3, r4, r5⟩ := ih (i + 1)
        (((st.AddLog ⟨"Message Sent", false⟩).SetStatus
            MsgStatusValue.wired).SetExternalID (ids i)) hok'
      have hi : i = 0 := hc.2
      have hne : ids 0 ≠ "" := by rw [← hi]; exact hc.1
      refine ⟨?_, ?_, ?_, ?_, ?_⟩
      · show (_ :: _).length = (p :: rest).length
        rw [List.length_cons, List.length_cons, r1]
      · show _ = _
        rw [r2]
        simp [List.replicate_succ]
      · show _ + 1 = (p :: rest).length
        rw [List.length_cons, r3]
      · show _ = _
        rw [r4]
        simp
      · show _ = _
        rw [r5]
        simp [hi, hne]
    · rw [if_neg hc]
      obtain ⟨r1, r2, r3, r4, r5⟩ := ih (i + 1)
        ((st.AddLog ⟨"Message Sent", false⟩).SetStatus MsgStatusValue.wired) hok'
      refine ⟨?_, ?_, ?_, ?_, ?_⟩
      · show (_ :: _).length = (p :: rest).length
        rw [List.length_cons, List.length_cons, r1]
      · show _ = _
        rw [r2]
        simp [List.replicate_succ]
      · show _ + 1 = (p :: rest).length
        rw [List.length_cons, r3]
      · show _ = _
        rw [r4]
        simp
      · show _ = _
        rw [r5]
        by_cases hi : i = 0
        · have hid : ids 0 = "" := by
            by_contra hne
            exact hc ⟨by rw [hi]; exact hne, hi⟩
          simp [hid]
        · simp [hi]

/-- Every request the segment loop makes carries the normalized destination
number, one of the loop's segments as message text, the sender address, the
fixed sentinel fields, and the bearer-token authorization header. -/
theorem sendSegments_requests_shape (addr mobile token : String) (resp : Nat → SendResp)
    (ps : List String) (i : Nat) (st : MsgStatus) (req : SendRequest)
    (h : req ∈ (sendSegments addr mobile token resp i ps st).requests) :
    req.payload.mobile = mobile ∧
    req.payload.message ∈ ps ∧
    req.payload.senderid = addr ∧
    req.payload.mType = -1 ∧
    req.payload.eType = -1 ∧
    req.payload.UDH = "" ∧
    req.authorization = "Bearer " ++ token := by
  induction ps generalizing i st with
  | nil => simp [sendSegments] at h
  | cons p rest ih =>
    cases hr : resp i with
    | transportErr =>
      rw [sendSegments] at h
      simp only [hr] at h
      simp at h
      subst h
      simp
    | ok id =>
      rw [sendSegments] at h
      simp only [hr] at h
      simp only [List.mem_cons] at h
      rcases h with h | h
      · subst h
        simp
      · obtain ⟨q1, q2, q3⟩ := ih (i + 1) _ h
        exact ⟨q1, List.mem_cons_of_mem _ q2, q3⟩

/-- Unfolding of `SendMsg` when the token fetch succeeds: the loop runs on
the message's segments starting from the status produced by the token step. -/
theorem SendMsg_eq_of_no_error (ch : Channel) (msg : Msg) (env : SendEnv)
    (herr : (FetchToken ch env.fetch).error = none) :
    SendMsg ch msg env =
      ⟨some (sendSegments ch.address (stripPlus msg.urnPath) (FetchToken ch env.fetch).token
          env.send 0 (SplitMsg msg.textAndAttachments maxMsgLength)
          (if (FetchToken ch env.fetch).rr then
            (⟨MsgStatusValue.errored, none, []⟩ : MsgStatus).AddLog ⟨"Token Retrieved", false⟩
          else ⟨MsgStatusValue.errored, none, []⟩)).status,
        none, (FetchToken ch env.fetch).httpCalls, (FetchToken ch env.fetch).cacheWrite,
        (sendSegments ch.address (stripPlus msg.urnPath) (FetchToken ch env.fetch).token
          env.send 0 (SplitMsg msg.textAndAttachments maxMsgLength)
          (if (FetchToken ch env.fetch).rr then
            (⟨MsgStatusValue.errored, none, []⟩ : MsgStatus).AddLog ⟨"Token Retrieved", false⟩
          else ⟨MsgStatusValue.errored, none, []⟩)).requests,
        (sendSegments ch.address (stripPlus msg.urnPath) (FetchToken ch env.fetch).token
          env.send 0 (SplitMsg msg.textAndAttachments maxMsgLength)
          (if (FetchToken ch env.fetch).rr then
            (⟨MsgStatusValue.errored, none, []⟩ : MsgStatus).AddLog ⟨"Token Retrieved", false⟩
          else ⟨MsgStatusValue.errored, none, []⟩)).okSends⟩ := by
  simp [SendMsg, herr]

/-- The chunking function never produces an empty list of chunks. -/
theorem chunkChars_ne_nil (fuel limit : Nat) (cs : List Char) :
    chunkChars fuel limit cs ≠ [] := by
  cases fuel with
  | zero => simp [chunkChars]
  | succ fuel => rw [chunkChars]; split <;> simp

/-- Segmentation never produces an empty list of segments. -/
theorem SplitMsg_ne_nil (text : String) (limit : Nat) : SplitMsg text limit ≠ [] := by
  intro h
  rw [SplitMsg, List.map_eq_nil_iff] at h
  exact chunkChars_ne_nil _ _ _ h

/-- Concatenating the chunks in order reproduces the character list. -/
theorem chunkChars_flatten (fuel limit : Nat) (cs : List Char) :
    (chunkChars fuel limit cs).flatten = cs := by
  induction fuel generalizing cs with
  | zero => simp [chunkChars]
  | succ fuel ih =>
    rw [chunkChars]
    split
    · simp
    · simp [ih]

/-- With enough fuel and a positive limit, every chunk has at most `limit`
characters. -/
theorem chunkChars_length_le (fuel limit : Nat) (cs : List Char)
    (hfuel : cs.length ≤ fuel) (hlimit : limit ≠ 0) :
    ∀ s ∈ chunkChars fuel limit cs, s.length ≤ limit := by
  induction fuel generalizing cs with
  | zero =>
    intro s hs
    have hnil : cs = [] := List.eq_nil_of_length_eq_zero (Nat.le_zero.mp hfuel)
    subst hnil
    simp [chunkChars] at hs
    subst hs
    simp
  | succ fuel ih =>
    intro s hs
    rw [chunkChars] at hs
    split at hs
    · rename_i hcond
      rcases hcond with h | h
      · exact absurd h hlimit
      · simp at hs
        subst hs
        exact h
    · rename_i hcond
      push_neg at hcond
      simp only [List.mem_cons] at hs
      rcases hs with hs | hs
      · subst hs
        simp
      · refine ih (cs.drop limit) ?_ s hs
        simp only [List.length_drop]
        omega


/-- With enough fuel, every chunk of a non-empty character list is non-empty. -/
theorem chunkChars_mem_ne_nil (fuel limit : Nat) (cs : List Char)
    (hfuel : cs.length ≤ fuel) (hcs : cs ≠ []) :
    ∀ s ∈ chunkChars fuel limit cs, s ≠ [] := by
  induction fuel generalizing cs with
  | zero =>
    intro s hs
    exact absurd (List.eq_nil_of_length_eq_zero (Nat.le_zero.mp hfuel)) hcs
  | succ fuel ih =>
    intro s hs
    rw [chunkChars] at hs
    split at hs
    · simp at hs
      subst hs
      exact hcs
    · rename_i hcond
      push_neg at hcond
      simp only [List.mem_cons] at hs
      rcases hs with hs | hs
      · subst hs
        intro htake
        have := congrArg List.length htake
        simp only [List.length_take, List.length_nil] at this
        omega
      · refine ih (cs.drop limit) ?_ ?_ s hs
        · simp only [List.length_drop]
          omega
        · intro hdrop
          have := congrArg List.length hdrop
          simp only [List.length_drop, List.length_nil] at this
          omega

/-- A character list of at most `limit` characters is a single chunk. -/
theorem chunkChars_single (fuel limit : Nat) (cs : List Char)
    (h : cs.length ≤ limit) : chunkChars fuel limit cs = [cs] := by
  cases fuel with
  | zero => rfl
  | succ fuel =>
    rw [chunkChars]
    rw [if_pos (Or.inr h)]

/-- C1 (counterexample): for the concrete channel whose `username` config is
empty, with an empty token cache, `SendMsg` does not return a status at all —
the returned status is nil (`none`), not a status in state errored, so the
claim as stated is false. -/
theorem sendMsg_missing_username_counterexample :
    (SendMsg ⟨"u1", "2000", "", "pw"⟩ ⟨"+252612345678", "hi"⟩
        ⟨⟨"", TokenResp.token "tok", true⟩, fun _ => SendResp.ok "mid"⟩).status = none ∧
    (SendMsg ⟨"u1", "2000", "", "pw"⟩ ⟨"+252612345678", "hi"⟩
        ⟨⟨"", TokenResp.token "tok", true⟩, fun _ => SendResp.ok "mid"⟩).error
      = some FetchErr.missingUsername := by
  decide

/-- C1 (amended): for every channel whose `username` credential is empty (and
likewise for `password`), when the token cache holds no token for the channel,
`SendMsg` returns a nil status (hence zero diagnostic entries) together with a
non-nil error, and no HTTP request is made. -/
theorem sendMsg_missing_credentials (ch : Channel) (msg : Msg) (env : SendEnv)
    (hc : env.fetch.cached = "") (h : ch.username = "" ∨ ch.password = "") :
    (SendMsg ch msg env).status = none ∧
    (SendMsg ch msg env).error.isSome = true ∧
    (SendMsg ch msg env).tokenHTTPCalls = 0 ∧
    (SendMsg ch msg env).requests = [] := by
  rcases h with h | h
  · simp [SendMsg, FetchToken, hc, h]
  · by_cases hu : ch.username = ""
    · simp [SendMsg, FetchToken, hc, hu]
    · simp [SendMsg, FetchToken, hc, hu, h]

/-- C1 (witness): the amended theorem applied at a concrete channel with an
empty `username` and an empty cache. -/
theorem sendMsg_missing_credentials_witness :
    (SendMsg ⟨"u2", "2000", "", "pw"⟩ ⟨"+252612345678", "hi"⟩
        ⟨⟨"", TokenResp.token "tok", true⟩, fun _ => SendResp.ok "mid"⟩).status = none ∧
    (SendMsg ⟨"u2", "2000", "", "pw"⟩ ⟨"+252612345678", "hi"⟩
        ⟨⟨"", TokenResp.token "tok", true⟩, fun _ => SendResp.ok "mid"⟩).error.isSome = true ∧
    (SendMsg ⟨"u2", "2000", "", "pw"⟩ ⟨"+252612345678", "hi"⟩
        ⟨⟨"", TokenResp.token "tok", true⟩, fun _ => SendResp.ok "mid"⟩).tokenHTTPCalls = 0 ∧
    (SendMsg ⟨"u2", "2000", "", "pw"⟩ ⟨"+252612345678", "hi"⟩
        ⟨⟨"", TokenResp.token "tok", true⟩, fun _ => SendResp.ok "mid"⟩).requests = [] :=
  sendMsg_missing_credentials _ _ _ rfl (Or.inl rfl)

/-- C2: for every multi-segment send in which the segment at index `m` fails
at the transport layer after the `m` earlier segments succeeded: the loop
stops (exactly `m + 1` requests are made, so segments after `m` are never
sent), segment `m`'s diagnostic entry is still appended (one diagnostic entry
per attempted segment, after any token-exchange entry), the external
identifier captured from the first segment is retained, and the status state
is errored when `m = 0` and stays wired otherwise. -/
theorem sendMsg_partial_failure (ch : Channel) (msg : Msg) (env : SendEnv)
    (ids : Nat → String) (m : Nat)
    (herr : (FetchToken ch env.fetch).error = none)
    (hm : m < (SplitMsg msg.textAndAttachments maxMsgLength).length)
    (hok : ∀ j, j < m → env.send j = SendResp.ok (ids j))
    (hfail : env.send m = SendResp.transportErr) :
    ∃ s, (SendMsg ch msg env).status = some s ∧
      (SendMsg ch msg env).requests.length = m + 1 ∧
      s.logs = (if (FetchToken ch env.fetch).rr then
          [(⟨"Token Retrieved", false⟩ : ChannelLog)] else [])
        ++ List.replicate m ⟨"Message Sent", false⟩ ++ [⟨"Message Sent", true⟩] ∧
      s.state = (if m = 0 then MsgStatusValue.errored else MsgStatusValue.wired) ∧
      s.externalID = (if m ≠ 0 ∧ ids 0 ≠ "" then some (ids 0) else none) := by
  have hok' : ∀ j, j < m → env.send (0 + j) = SendResp.ok (ids (0 + j)) := by
    intro j hj
    simpa using hok j hj
  have hfail' : env.send (0 + m) = SendResp.transportErr := by simpa using hfail
  rw [SendMsg_eq_of_no_error ch msg env herr]
  by_cases hrr : (FetchToken ch env.fetch).rr = true
  · rw [if_pos hrr]
    obtain ⟨r1, r2, r3, r4, r5⟩ := sendSegments_fail ch.address (stripPlus msg.urnPath)
      (FetchToken ch env.fetch).token env.send ids
      (SplitMsg msg.textAndAttachments maxMsgLength) m 0
      ((⟨MsgStatusValue.errored, none, []⟩ : MsgStatus).AddLog ⟨"Token Retrieved", false⟩)
      hm hok' hfail'
    refine ⟨_, rfl, r1, ?_, ?_, ?_⟩
    · rw [r2]
      simp [hrr]
    · rw [r4]
      try simp
    · rw [r5]
      simp
  · rw [if_neg hrr]
    obtain ⟨r1, r2, r3, r4, r5⟩ := sendSegments_fail ch.address (stripPlus msg.urnPath)
      (FetchToken ch env.fetch).token env.send ids
      (SplitMsg msg.textAndAttachments maxMsgLength) m 0
      (⟨MsgStatusValue.errored, none, []⟩ : MsgStatus) hm hok' hfail'
    refine ⟨_, rfl, r1, ?_, ?_, ?_⟩
    · rw [r2]
      simp [hrr]
    · rw [r4]
      try simp
    · rw [r5]
      simp

/-- C2 (witness): the theorem applied at a concrete two-segment message
(161 characters) whose first segment send succeeds with an external ID and
whose second segment send fails at the transport layer, with a warm token
cache (so there is no token-exchange diagnostic entry). -/
theorem sendMsg_partial_failure_witness :
    ∃ s, (SendMsg ⟨"u8", "2000", "user", "pw"⟩
        ⟨"+252612345678", String.mk (List.replicate 161 'x')⟩
        ⟨⟨"tok", TokenResp.transportErr, true⟩,
          fun j => if j = 0 then SendResp.ok "first-id" else SendResp.transportErr⟩).status
        = some s ∧
      (SendMsg ⟨"u8", "2000", "user", "pw"⟩
        ⟨"+252612345678", String.mk (List.replicate 161 'x')⟩
        ⟨⟨"tok", TokenResp.transportErr, true⟩,
          fun j => if j = 0 then SendResp.ok "first-id" else SendResp.transportErr⟩).requests.length
        = 1 + 1 ∧
      s.logs = (if (FetchToken ⟨"u8", "2000", "user", "pw"⟩
          ⟨"tok", TokenResp.transportErr, true⟩).rr then
          [(⟨"Token Retrieved", false⟩ : ChannelLog)] else [])
        ++ List.replicate 1 ⟨"Message Sent", false⟩ ++ [⟨"Message Sent", true⟩] ∧
      s.state = (if 1 = 0 then MsgStatusValue.errored else MsgStatusValue.wired) ∧
      s.externalID = (if 1 ≠ 0 ∧ (fun _ : Nat => "first-id") 0 ≠ ""
        then some ((fun _ : Nat => "first-id") 0) else none) :=
  sendMsg_partial_failure ⟨"u8", "2000", "user", "pw"⟩
    ⟨"+252612345678", String.mk (List.replicate 161 'x')⟩
    ⟨⟨"tok", TokenResp.transportErr, true⟩,
      fun j => if j = 0 then SendResp.ok "first-id" else SendResp.transportErr⟩
    (fun _ => "first-id") 1 (by decide) (by decide)
    (by
      intro j hj
      have hj0 : j = 0 := by omega
      subst hj0
      rfl)
    rfl

/-- C4: for every send whose segment sends all succeed, the status's external
identifier is determined by the first segment's response alone — recorded when
its `Data.MessageID` is non-empty, left unset otherwise, with identifiers of
subsequent segments discarded — and each successful segment send advances the
status state to wired, every segment being counted as successfully sent. -/
theorem sendMsg_externalID_from_first_segment (ch : Channel) (msg : Msg) (env : SendEnv)
    (ids : Nat → String)
    (herr : (FetchToken ch env.fetch).error = none)
    (hok : ∀ j, j < (SplitMsg msg.textAndAttachments maxMsgLength).length →
      env.send j = SendResp.ok (ids j)) :
    ∃ s, (SendMsg ch msg env).status = some s ∧
      s.externalID = (if ids 0 ≠ "" then some (ids 0) else none) ∧
      s.state = MsgStatusValue.wired ∧
      (SendMsg ch msg env).okSends
        = (SplitMsg msg.textAndAttachments maxMsgLength).length := by
  have hlen : (SplitMsg msg.textAndAttachments maxMsgLength).length ≠ 0 := by
    intro h0
    exact SplitMsg_ne_nil msg.textAndAttachments maxMsgLength (List.length_eq_zero.mp h0)
  have hok' : ∀ j, j < (SplitMsg msg.textAndAttachments maxMsgLength).length →
      env.send (0 + j) = SendResp.ok (ids (0 + j)) := by
    intro j hj
    simpa using hok j hj
  rw [SendMsg_eq_of_no_error ch msg env herr]
  by_cases hrr : (FetchToken ch env.fetch).rr = true
  · rw [if_pos hrr]
    obtain ⟨r1, r2, r3, r4, r5⟩ := sendSegments_allOk ch.address (stripPlus msg.urnPath)
      (FetchToken ch env.fetch).token env.send ids
      (SplitMsg msg.textAndAttachments maxMsgLength) 0
      ((⟨MsgStatusValue.errored, none, []⟩ : MsgStatus).AddLog ⟨"Token Retrieved", false⟩)
      hok'
    refine ⟨_, rfl, ?_, ?_, r3⟩
    · rw [r5]
      simp [hlen]
    · rw [r4]
      simp [hlen]
  · rw [if_neg hrr]
    obtain ⟨r1, r2, r3, r4, r5⟩ := sendSegments_allOk ch.address (stripPlus msg.urnPath)
      (FetchToken ch env.fetch).token env.send ids
      (SplitMsg msg.textAndAttachments maxMsgLength) 0
      (⟨MsgStatusValue.errored, none, []⟩ : MsgStatus) hok'
    refine ⟨_, rfl, ?_, ?_, r3⟩
    · rw [r5]
      simp [hlen]
    · rw [r4]
      simp [hlen]

/-- C4 (witness): the theorem applied at a concrete two-segment message whose
two segment sends both succeed, the first returning `"mid-1"` and the second
`"mid-2"`: only the first identifier is recorded. -/
theorem sendMsg_externalID_from_first_segment_witness :
    ∃ s, (SendMsg ⟨"u9", "2000", "user", "pw"⟩
        ⟨"+252612345678", String.mk (List.replicate 161 'x')⟩
        ⟨⟨"tok", TokenResp.transportErr, true⟩,
          fun j => if j = 0 then SendResp.ok "mid-1" else SendResp.ok "mid-2"⟩).status
        = some s ∧
      s.externalID = (if (fun j : Nat => if j = 0 then "mid-1" else "mid-2") 0 ≠ ""
        then some ((fun j : Nat => if j = 0 then "mid-1" else "mid-2") 0) else none) ∧
      s.state = MsgStatusValue.wired ∧
      (SendMsg ⟨"u9", "2000", "user", "pw"⟩
        ⟨"+252612345678", String.mk (List.replicate 161 'x')⟩
        ⟨⟨"tok", TokenResp.transportErr, true⟩,
          fun j => if j = 0 then SendResp.ok "mid-1" else SendResp.ok "mid-2"⟩).okSends
        = (SplitMsg (String.mk (List.replicate 161 'x')) maxMsgLength).length :=
  sendMsg_externalID_from_first_segment ⟨"u9", "2000", "user", "pw"⟩
    ⟨"+252612345678", String.mk (List.replicate 161 'x')⟩
    ⟨⟨"tok", TokenResp.transportErr, true⟩,
      fun j => if j = 0 then SendResp.ok "mid-1" else SendResp.ok "mid-2"⟩
    (fun j => if j = 0 then "mid-1" else "mid-2") (by decide)
    (by
      intro j hj
      by_cases hj0 : j = 0 <;> simp [hj0])

/-- C5: every provider send request made by `SendMsg` carries a JSON body
whose fields are exactly: `mobile` the destination number with a leading `+`
stripped, `message` one of the message's segments, `senderid` the channel's
address, `mType` and `eType` fixed to `-1`, `UDH` fixed to `""`, under a
bearer-token authorization header carrying the fetched token. -/
theorem sendMsg_request_shape (ch : Channel) (msg : Msg) (env : SendEnv)
    (req : SendRequest) (h : req ∈ (SendMsg ch msg env).requests) :
    req.payload.mobile = stripPlus msg.urnPath ∧
    req.payload.message ∈ SplitMsg msg.textAndAttachments maxMsgLength ∧
    req.payload.senderid = ch.address ∧
    req.payload.mType = -1 ∧
    req.payload.eType = -1 ∧
    req.payload.UDH = "" ∧
    req.authorization = "Bearer " ++ (FetchToken ch env.fetch).token := by
  by_cases h2 : (FetchToken ch env.fetch).error.isSome = true
  · by_cases hrr : (FetchToken ch env.fetch).rr = false
    · simp [SendMsg, hrr, h2] at h
    · simp [SendMsg, hrr, h2] at h
  · simp only [SendMsg, h2] at h
    simp at h
    exact sendSegments_requests_shape ch.address (stripPlus msg.urnPath)
      (FetchToken ch env.fetch).token env.send
      (SplitMsg msg.textAndAttachments maxMsgLength) 0 _ req h

/-- C5 (witness): the theorem applied at a concrete single-segment send: the
one request made carries exactly the expected payload and header. -/
theorem sendMsg_request_shape_witness :
    (⟨⟨"252612345678", "hi", "2000", -1, -1, ""⟩, "Bearer tok"⟩ : SendRequest).payload.mobile
      = stripPlus "+252612345678" ∧
    (⟨⟨"252612345678", "hi", "2000", -1, -1, ""⟩, "Bearer tok"⟩ : SendRequest).payload.message
      ∈ SplitMsg "hi" maxMsgLength ∧
    (⟨⟨"252612345678", "hi", "2000", -1, -1, ""⟩, "Bearer tok"⟩ : SendRequest).payload.senderid
      = (⟨"u10", "2000", "user", "pw"⟩ : Channel).address ∧
    (⟨⟨"252612345678", "hi", "2000", -1, -1, ""⟩, "Bearer tok"⟩ : SendRequest).payload.mType
      = -1 ∧
    (⟨⟨"252612345678", "hi", "2000", -1, -1, ""⟩, "Bearer tok"⟩ : SendRequest).payload.eType
      = -1 ∧
    (⟨⟨"252612345678", "hi", "2000", -1, -1, ""⟩, "Bearer tok"⟩ : SendRequest).payload.UDH
      = "" ∧
    (⟨⟨"252612345678", "hi", "2000", -1, -1, ""⟩, "Bearer tok"⟩ : SendRequest).authorization
      = "Bearer " ++ (FetchToken ⟨"u10", "2000", "user", "pw"⟩
          ⟨"tok", TokenResp.transportErr, true⟩).token :=
  sendMsg_request_shape ⟨"u10", "2000", "user", "pw"⟩ ⟨"+252612345678", "hi"⟩
    ⟨⟨"tok", TokenResp.transportErr, true⟩, fun _ => SendResp.ok "mid"⟩
    ⟨⟨"252612345678", "hi", "2000", -1, -1, ""⟩, "Bearer tok"⟩
    (by
      have h : (SendMsg ⟨"u10", "2000", "user", "pw"⟩ ⟨"+252612345678", "hi"⟩
          ⟨⟨"tok", TokenResp.transportErr, true⟩, fun _ => SendResp.ok "mid"⟩).requests
          = [⟨⟨"252612345678", "hi", "2000", -1, -1, ""⟩, "Bearer tok"⟩] := by decide
      rw [h]
      simp)

/-- C3: for every send in which the token endpoint responds with HTTP success
but the `access_token` field is absent or empty, `SendMsg` returns a status in
state errored carrying exactly one diagnostic entry (the token exchange, with
its error), no send-endpoint diagnostic entries and no send requests, and the
function-level error return is nil. -/
theorem sendMsg_empty_access_token (ch : Channel) (msg : Msg) (env : SendEnv)
    (hc : env.fetch.cached = "") (hu : ch.username ≠ "") (hp : ch.password ≠ "")
    (ht : env.fetch.tokenResp = TokenResp.parseErr ∨
      env.fetch.tokenResp = TokenResp.token "") :
    (SendMsg ch msg env).status
      = some ⟨MsgStatusValue.errored, none, [⟨"Token Retrieved", true⟩]⟩ ∧
    (SendMsg ch msg env).error = none ∧
    (SendMsg ch msg env).requests = [] := by
  rcases ht with ht | ht <;>
    simp [SendMsg, FetchToken, MsgStatus.AddLog, hc, hu, hp, ht]

/-- C3 (witness): the theorem applied at a concrete channel whose token
endpoint returns a body with no `access_token` field. -/
theorem sendMsg_empty_access_token_witness :
    (SendMsg ⟨"u3", "2000", "user", "pw"⟩ ⟨"+252612345678", "hi"⟩
        ⟨⟨"", TokenResp.parseErr, true⟩, fun _ => SendResp.ok "mid"⟩).status
      = some ⟨MsgStatusValue.errored, none, [⟨"Token Retrieved", true⟩]⟩ ∧
    (SendMsg ⟨"u3", "2000", "user", "pw"⟩ ⟨"+252612345678", "hi"⟩
        ⟨⟨"", TokenResp.parseErr, true⟩, fun _ => SendResp.ok "mid"⟩).error = none ∧
    (SendMsg ⟨"u3", "2000", "user", "pw"⟩ ⟨"+252612345678", "hi"⟩
        ⟨⟨"", TokenResp.parseErr, true⟩, fun _ => SendResp.ok "mid"⟩).requests = [] :=
  sendMsg_empty_access_token _ _ _ rfl (by decide) (by decide) (Or.inl rfl)

/-- C6: after every successful live token fetch, the token is written to the
shared store under key `hm_token_<channelID>` with TTL exactly 5340 seconds;
the outcome of that cache write is only ever logged (`cacheWriteFailLogged`
records a failed write) and never changes the result: for any value of
`cacheWriteOk` the token is returned with a nil error. -/
theorem fetchToken_caches_token (ch : Channel) (env : FetchEnv) (t : String)
    (hc : env.cached = "") (hu : ch.username ≠ "") (hp : ch.password ≠ "")
    (ht : env.tokenResp = TokenResp.token t) (hne : t ≠ "") :
    (FetchToken ch env).cacheWrite = some ⟨"hm_token_" ++ ch.uuid, 5340, t⟩ ∧
    (FetchToken ch env).token = t ∧
    (FetchToken ch env).error = none ∧
    (FetchToken ch env).cacheWriteFailLogged = !env.cacheWriteOk := by
  simp [FetchToken, hc, hu, hp, ht, hne]

/-- C6 (witness): the theorem applied at a concrete channel whose cache write
fails (`cacheWriteOk = false`): the failure is logged and the token is still
returned with a nil error. -/
theorem fetchToken_caches_token_witness :
    (FetchToken ⟨"u4", "2000", "user", "pw"⟩ ⟨"", TokenResp.token "tok", false⟩).cacheWrite
      = some ⟨"hm_token_" ++ "u4", 5340, "tok"⟩ ∧
    (FetchToken ⟨"u4", "2000", "user", "pw"⟩ ⟨"", TokenResp.token "tok", false⟩).token
      = "tok" ∧
    (FetchToken ⟨"u4", "2000", "user", "pw"⟩ ⟨"", TokenResp.token "tok", false⟩).error
      = none ∧
    (FetchToken ⟨"u4", "2000", "user", "pw"⟩ ⟨"", TokenResp.token "tok", false⟩).cacheWriteFailLogged
      = !false :=
  fetchToken_caches_token _ _ _ rfl (by decide) (by decide) rfl (by decide)

/-- C7: for every channel with a warm cache (a non-empty stored token),
`FetchToken` returns the cached token with no request-response record and no
error, performs zero provider HTTP calls and writes nothing to the cache — so
a second call in immediate succession sees the same environment and the two
calls together make zero provider HTTP calls. -/
theorem fetchToken_warm_cache (ch : Channel) (env : FetchEnv) (h : env.cached ≠ "") :
    (FetchToken ch env).token = env.cached ∧
    (FetchToken ch env).rr = false ∧
    (FetchToken ch env).error = none ∧
    (FetchToken ch env).cacheWrite = none ∧
    (FetchToken ch env).httpCalls + (FetchToken ch env).httpCalls = 0 := by
  simp [FetchToken, h]

/-- C7 (witness): the theorem applied at a concrete warm cache. -/
theorem fetchToken_warm_cache_witness :
    (FetchToken ⟨"u5", "2000", "user", "pw"⟩ ⟨"cached-tok", TokenResp.transportErr, true⟩).token
      = "cached-tok" ∧
    (FetchToken ⟨"u5", "2000", "user", "pw"⟩ ⟨"cached-tok", TokenResp.transportErr, true⟩).rr
      = false ∧
    (FetchToken ⟨"u5", "2000", "user", "pw"⟩ ⟨"cached-tok", TokenResp.transportErr, true⟩).error
      = none ∧
    (FetchToken ⟨"u5", "2000", "user", "pw"⟩ ⟨"cached-tok", TokenResp.transportErr, true⟩).cacheWrite
      = none ∧
    (FetchToken ⟨"u5", "2000", "user", "pw"⟩ ⟨"cached-tok", TokenResp.transportErr, true⟩).httpCalls
      + (FetchToken ⟨"u5", "2000", "user", "pw"⟩ ⟨"cached-tok", TokenResp.transportErr, true⟩).httpCalls
      = 0 :=
  fetchToken_warm_cache _ _ (by decide)

/-- C9: `FetchToken` never returns an empty token together with a nil error:
whenever the returned error is nil, the returned token is a non-empty string. -/
theorem fetchToken_token_nonempty (ch : Channel) (env : FetchEnv)
    (h : (FetchToken ch env).error = none) :
    (FetchToken ch env).token ≠ "" := by
  by_cases h1 : env.cached = ""
  · by_cases h2 : ch.username = ""
    · simp [FetchToken, h1, h2] at h
    · by_cases h3 : ch.password = ""
      · simp [FetchToken, h1, h2, h3] at h
      · cases htr : env.tokenResp with
        | transportErr => simp [FetchToken, h1, h2, h3, htr] at h
        | parseErr => simp [FetchToken, h1, h2, h3, htr] at h
        | token t =>
          by_cases h4 : t = ""
          · simp [FetchToken, h1, h2, h3, htr, h4] at h
          · simp [FetchToken, h1, h2, h3, htr, h4]
  · simp [FetchToken, h1]

/-- C10: every non-nil status returned by `SendMsg` is in state errored or
wired and in no other state, and it is wired if and only if at least one
segment HTTP send succeeded. -/
theorem sendMsg_status_errored_or_wired (ch : Channel) (msg : Msg) (env : SendEnv)
    (s : MsgStatus) (h : (SendMsg ch msg env).status = some s) :
    (s.state = MsgStatusValue.errored ∨ s.state = MsgStatusValue.wired) ∧
    (s.state = MsgStatusValue.wired ↔ 0 < (SendMsg ch msg env).okSends) := by
  by_cases h1 : (FetchToken ch env.fetch).rr = false ∧ (FetchToken ch env.fetch).error.isSome
  · simp [SendMsg, h1] at h
  · by_cases h2 : (FetchToken ch env.fetch).error.isSome
    · cases hrr : (FetchToken ch env.fetch).rr with
      | false => exact absurd ⟨hrr, h2⟩ h1
      | true =>
        simp [SendMsg, h1, h2, hrr] at h ⊢
        simp [← h]
    · have hone := sendSegments_state_okSends ch.address (stripPlus msg.urnPath)
        (FetchToken ch env.fetch).token env.send
        (SplitMsg msg.textAndAttachments maxMsgLength) 0
        (if (FetchToken ch env.fetch).rr then
          (⟨MsgStatusValue.errored, none, []⟩ : MsgStatus).AddLog
            ⟨"Token Retrieved", false⟩
        else ⟨MsgStatusValue.errored, none, []⟩)
      simp [SendMsg, h1, h2] at h ⊢
      rcases hone with ⟨ha, hb⟩ | ⟨ha, hb⟩
      · have hstate : s.state = MsgStatusValue.errored := by
          rw [← h, ha]
          split <;> rfl
        simp [hstate, hb]
      · have hstate : s.state = MsgStatusValue.wired := by rw [← h]; exact ha
        simp [hstate, hb]

/-- C10 (witness): the theorem applied at a concrete send whose only segment
succeeds: the status is wired with one successful segment send. -/
theorem sendMsg_status_errored_or_wired_witness :
    ((⟨MsgStatusValue.wired, some "mid1",
        [⟨"Token Retrieved", false⟩, ⟨"Message Sent", false⟩]⟩ : MsgStatus).state
        = MsgStatusValue.errored ∨
      (⟨MsgStatusValue.wired, some "mid1",
        [⟨"Token Retrieved", false⟩, ⟨"Message Sent", false⟩]⟩ : MsgStatus).state
        = MsgStatusValue.wired) ∧
    ((⟨MsgStatusValue.wired, some "mid1",
        [⟨"Token Retrieved", false⟩, ⟨"Message Sent", false⟩]⟩ : MsgStatus).state
        = MsgStatusValue.wired ↔
      0 < (SendMsg ⟨"u7", "2000", "user", "pw"⟩ ⟨"+252612345678", "hi"⟩
        ⟨⟨"", TokenResp.token "tok", true⟩, fun _ => SendResp.ok "mid1"⟩).okSends) :=
  sendMsg_status_errored_or_wired ⟨"u7", "2000", "user", "pw"⟩ ⟨"+252612345678", "hi"⟩
    ⟨⟨"", TokenResp.token "tok", true⟩, fun _ => SendResp.ok "mid1"⟩
    ⟨MsgStatusValue.wired, some "mid1",
      [⟨"Token Retrieved", false⟩, ⟨"Message Sent", false⟩]⟩ (by decide)

/-- C8 (counterexample): for the empty message, segmentation with limit 160
yields the single empty segment — the claim's requirement that every segment
be non-empty fails at this input (it conflicts with the requirement that a
message of length at most the limit be returned as one segment equal to the
message). -/
theorem SplitMsg_empty_counterexample :
    SplitMsg "" 160 = [""] ∧
    ("" : String) ∈ SplitMsg "" 160 ∧ ("" : String).length = 0 := by
  have h : SplitMsg "" 160 = [""] := by decide
  refine ⟨h, ?_, rfl⟩
  rw [h]
  exact List.mem_singleton_self ""

/-- C8 (amended): for every message, segmentation with limit 160
(`maxMsgLength`) produces one or more segments, each of length at most the
limit, whose in-order concatenation reproduces the message text; every
segment of a non-empty message is non-empty; and every message of length at
most the limit yields exactly one segment equal to the message. -/
theorem SplitMsg_spec (text : String) :
    SplitMsg text maxMsgLength ≠ [] ∧
    (∀ s ∈ SplitMsg text maxMsgLength, s.length ≤ maxMsgLength) ∧
    ((SplitMsg text maxMsgLength).map String.data).flatten = text.data ∧
    (text ≠ "" → ∀ s ∈ SplitMsg text maxMsgLength, s ≠ "") ∧
    (text.length ≤ maxMsgLength → SplitMsg text maxMsgLength = [text]) := by
  refine ⟨SplitMsg_ne_nil text maxMsgLength, ?_, ?_, ?_, ?_⟩
  · intro s hs
    rw [SplitMsg] at hs
    simp only [List.mem_map] at hs
    obtain ⟨c, hc, rfl⟩ := hs
    exact chunkChars_length_le text.data.length maxMsgLength text.data le_rfl
      (by decide) c hc
  · rw [SplitMsg, List.map_map]
    have hcomp : String.data ∘ String.mk = id := rfl
    rw [hcomp, List.map_id]
    exact chunkChars_flatten _ _ _
  · intro hne s hs
    rw [SplitMsg] at hs
    simp only [List.mem_map] at hs
    obtain ⟨c, hc, rfl⟩ := hs
    have hdata : text.data ≠ [] := by
      intro hd
      apply hne
      cases text with
      | mk d =>
        simp only at hd
        rw [hd]
    have hcne := chunkChars_mem_ne_nil text.data.length maxMsgLength text.data
      le_rfl hdata c hc
    intro hmk
    apply hcne
    have := congrArg String.data hmk
    simpa using this
  · intro hle
    rw [SplitMsg, chunkChars_single text.data.length maxMsgLength text.data hle]
    simp

/-- C8 (witness): the amended theorem applied at the concrete message
`"abc"`: all segments non-empty, and a message within the limit is a single
segment equal to the message. -/
theorem SplitMsg_spec_witness :
    (∀ s ∈ SplitMsg "abc" maxMsgLength, s ≠ "") ∧
    SplitMsg "abc" maxMsgLength = ["abc"] :=
  ⟨(SplitMsg_spec "abc").2.2.2.1 (by decide),
    (SplitMsg_spec "abc").2.2.2.2 (by decide)⟩

/-- C9 (witness): the theorem applied at a concrete successful live fetch. -/
theorem fetchToken_token_nonempty_witness :
    (FetchToken ⟨"u6", "2000", "user", "pw"⟩ ⟨"", TokenResp.token "tok", true⟩).token ≠ "" :=
  fetchToken_token_nonempty _ _ (by decide)

end Hormuud

section Sanity

open Hormuud

example : SplitMsg "hello" 160 = ["hello"] := by decide

example : SplitMsg "" 160 = [""] := by decide

example :
    (FetchToken ⟨"u1", "2000", "", "pw"⟩ ⟨"", TokenResp.token "tok", true⟩).error
      = some FetchErr.missingUsername := by decide

example :
    (SendMsg ⟨"u1", "2000", "user", "pw"⟩ ⟨"+252612345678", "hi"⟩
      ⟨⟨"", TokenResp.token "tok", true⟩, fun _ => SendResp.ok "mid1"⟩).status
    = some ⟨MsgStatusValue.wired, some "mid1",
        [⟨"Token Retrieved", false⟩, ⟨"Message Sent", false⟩]⟩ := by decide

end Sanity
